import Mathlib

/-!
Verification development for the GPU particle simulation core of the
3D_Realistic_CV repository.  The WGSL compute kernel
(`particle-compute.wgsl`) and the CPU-side orchestrator
(`ComputeParticleSystem`) and scene fallback (`WaterfallScene`) are
shallowly embedded below.  Machine 32-bit unsigned arithmetic is modelled
on `Nat` with explicit `% 4294967296`; float arithmetic is modelled on
`ℚ` (exact real semantics of the expressions in the source); vector
normalisation and length comparisons are expanded algebraically so that
everything stays rational: `reflect(v, normalize u) = v - (2(v·u)/(u·u))u`
and `length u < r ↔ 0 < r ∧ u·u < r²`.
-/

namespace Waterfall

/-- 3D vector with exact rational components, standing for WGSL `vec3<f32>`. -/
structure Vec3 where
  x : ℚ
  y : ℚ
  z : ℚ
deriving DecidableEq

instance : Add Vec3 := ⟨fun a b => ⟨a.x + b.x, a.y + b.y, a.z + b.z⟩⟩
instance : Sub Vec3 := ⟨fun a b => ⟨a.x - b.x, a.y - b.y, a.z - b.z⟩⟩
instance : SMul ℚ Vec3 := ⟨fun c v => ⟨c * v.x, c * v.y, c * v.z⟩⟩
instance : Inhabited Vec3 := ⟨⟨0, 0, 0⟩⟩

@[simp] theorem Vec3.add_def (a b : Vec3) :
    a + b = ⟨a.x + b.x, a.y + b.y, a.z + b.z⟩ := rfl

@[simp] theorem Vec3.sub_def (a b : Vec3) :
    a - b = ⟨a.x - b.x, a.y - b.y, a.z - b.z⟩ := rfl

@[simp] theorem Vec3.smul_def (c : ℚ) (v : Vec3) :
    c • v = ⟨c * v.x, c * v.y, c * v.z⟩ := rfl

/-- WGSL `dot`. -/
def dot (a b : Vec3) : ℚ := a.x * b.x + a.y * b.y + a.z * b.z

/-- One particle record: `position`, `velocity`, `life`, `size`
(struct `Particle` in the WGSL shader and the 8-float stride of the
CPU-side `Float32Array`). -/
structure Particle where
  position : Vec3
  velocity : Vec3
  life : ℚ
  size : ℚ
deriving DecidableEq

instance : Inhabited Particle := ⟨⟨⟨0, 0, 0⟩, ⟨0, 0, 0⟩, 0, 0⟩⟩

/-- Struct `SimulationParams` of the shader / orchestrator. -/
structure SimulationParams where
  deltaTime : ℚ
  gravity : Vec3
  damping : ℚ
  viscosity : ℚ
  particleCount : Nat
  emitterPosition : Vec3
  emitterRadius : ℚ
deriving DecidableEq

/-- Struct `Obstacle` (sphere collider): `position`, `radius`. -/
structure Obstacle where
  position : Vec3
  radius : ℚ
deriving DecidableEq

/-- The parameter record built in the `ComputeParticleSystem` constructor:
deltaTime 0.016, gravity (0,-9.81,0), damping 0.99, viscosity 0.02,
particleCount 50000 (default argument), emitter (0,10,0), radius 2. -/
def defaultParams : SimulationParams :=
  { deltaTime := 2 / 125
    gravity := ⟨0, -981 / 100, 0⟩
    damping := 99 / 100
    viscosity := 1 / 50
    particleCount := 50000
    emitterPosition := ⟨0, 10, 0⟩
    emitterRadius := 2 }

/-- The 32-bit state transformation inside WGSL `fn hash`:
`state = p*747796405 + 2891336453;
 state = ((state >> ((state >> 28) + 4)) ^ state) * 277803737;
 state = (state >> 22) ^ state;`
with every multiply/add taken modulo 2^32 (u32 wrap-around). -/
def hashState (p : Nat) : Nat :=
  let s1 := (p * 747796405 + 2891336453) % 4294967296
  let s2 := (((s1 >>> ((s1 >>> 28) + 4)) ^^^ s1) * 277803737) % 4294967296
  (s2 >>> 22) ^^^ s2

/-- WGSL `fn hash(p: u32) -> f32`: the final state divided by
`4294967295.0` (that is, by 2^32 - 1), modelled exactly on ℚ. -/
def hash (p : Nat) : ℚ := (hashState p : ℚ) / 4294967295

/-- WGSL `fn random3`: three consecutive hashes of `seed`, `seed+1`, `seed+2`. -/
def random3 (seed : Nat) : Vec3 := ⟨hash seed, hash (seed + 1), hash (seed + 2)⟩

/-- The `u32(params.deltaTime * 1000.0)` conversion used to derive the
respawn seed: truncation toward zero, negative values saturating to 0. -/
def timeSeed (dt : ℚ) : Nat := (Rat.floor (dt * 1000)).toNat

/-- The respawn branch of the kernel as a function of the drawn random
vector `rand` (each component of `rand` is produced by `hash`, hence lies
in the unit interval):
position `emitterPosition + (rand - 0.5) * emitterRadius`,
velocity `((rand.x-0.5)*2, -1 - rand.y*2, (rand.z-0.5)*2)`,
life `5 + rand.x*3`, size `0.05 + rand.y*0.05`. -/
def respawnWith (rand : Vec3) (params : SimulationParams) (_p : Particle) : Particle :=
  { position := params.emitterPosition + params.emitterRadius • (rand - ⟨1/2, 1/2, 1/2⟩)
    velocity := ⟨(rand.x - 1/2) * 2, -1 - rand.y * 2, (rand.z - 1/2) * 2⟩
    life := 5 + rand.x * 3
    size := 1/20 + rand.y * (1/20) }

/-- The kernel's respawn branch: `rand = random3(index + u32(deltaTime*1000))`. -/
def respawn (index : Nat) (params : SimulationParams) (p : Particle) : Particle :=
  respawnWith (random3 (index + timeSeed params.deltaTime)) params p

/-- WGSL `reflect(v, normalize u)` expanded algebraically:
`v - (2 (v·u) / (u·u)) u`.  (For unit `n = u / |u|`,
`reflect(v,n) = v - 2(v·n)n` equals this expression.) -/
def reflectDir (v u : Vec3) : Vec3 := v - ((2 * dot v u) / dot u u) • u

/-- The collision test `length(pos - obstacle.position) < obstacle.radius`
expressed without square roots: a nonnegative length is below `radius`
iff `radius` is positive and the squared length is below `radius²`. -/
def obstacleHit (ob : Obstacle) (pos : Vec3) : Prop :=
  0 < ob.radius ∧ dot (pos - ob.position) (pos - ob.position) < ob.radius ^ 2

instance (ob : Obstacle) (pos : Vec3) : Decidable (obstacleHit ob pos) :=
  inferInstanceAs (Decidable (_ ∧ _))

/-- One iteration of the obstacle loop: if the particle is inside `ob`,
overwrite `newVel` with `reflect(vel, normal) * 0.6` (energy loss 0.6) —
note the source reflects the ORIGINAL `vel` argument, not the running
`newVel`, so the last colliding obstacle wins. -/
def collideStep (pos vel : Vec3) (newVel : Vec3) (ob : Obstacle) : Vec3 :=
  if obstacleHit ob pos then (3/5 : ℚ) • reflectDir vel (pos - ob.position)
  else newVel

/-- WGSL `fn checkObstacleCollision(pos, vel)`: iterate over the whole
obstacle array, starting from `newVel = vel`. -/
def checkObstacleCollision (obstacles : List Obstacle) (pos vel : Vec3) : Vec3 :=
  obstacles.foldl (collideStep pos vel) vel

/-- Loop stride of the viscosity sampling:
`sampleStep = max(1, particleCount / 1000)` (u32 division). -/
def sampleStep (particleCount : Nat) : Nat := max 1 (particleCount / 1000)

/-- The indices visited by `for (i = 0; i < particleCount; i += sampleStep)`. -/
def sampleIndices (particleCount : Nat) : List Nat :=
  let s := sampleStep particleCount
  (List.range ((particleCount + s - 1) / s)).map (fun k => k * s)

/-- The velocities accumulated by the viscosity loop: sampled indices
other than `index` whose position is within `influenceRadius = 0.5` of
`pos` and farther than `0.001` (distance conditions squared: the distance
is in `(0.001, 0.5)` iff its square is in `(0.000001, 0.25)`). -/
def viscosityNeighbors (params : SimulationParams) (allParticles : List Particle)
    (index : Nat) (pos : Vec3) : List Vec3 :=
  (sampleIndices params.particleCount).filterMap (fun i =>
    if i = index then none
    else
      let q := allParticles.getD i default
      let d2 := dot (pos - q.position) (pos - q.position)
      if 1/1000000 < d2 ∧ d2 < 1/4 then some q.velocity else none)

/-- The averaging denominator of `applyViscosity`: seeded at `1.0`, plus
one for every accumulated neighbour. -/
def viscosityCount (params : SimulationParams) (allParticles : List Particle)
    (index : Nat) (pos : Vec3) : ℚ :=
  1 + (viscosityNeighbors params allParticles index pos).length

/-- WGSL `mix(x, y, a) = x*(1-a) + y*a`, componentwise. -/
def mix (x y : Vec3) (a : ℚ) : Vec3 :=
  ⟨x.x * (1 - a) + y.x * a, x.y * (1 - a) + y.y * a, x.z * (1 - a) + y.z * a⟩

/-- WGSL `fn applyViscosity(index, pos, vel)`: average the own velocity
with the sampled neighbour velocities and blend toward that average by
the `viscosity` weight. -/
def applyViscosity (params : SimulationParams) (allParticles : List Particle)
    (index : Nat) (pos vel : Vec3) : Vec3 :=
  let ns := viscosityNeighbors params allParticles index pos
  let avgVel := ns.foldl (fun a v => a + v) vel
  mix vel ((1 / viscosityCount params allParticles index pos) • avgVel) params.viscosity

/-- Verlet integration of the kernel: `velocity += gravity * deltaTime`
then `velocity *= damping`. -/
def integrateVelocity (params : SimulationParams) (v : Vec3) : Vec3 :=
  params.damping • (v + params.deltaTime • params.gravity)

/-- Ground collision of the kernel: below `y = -10` the position is
clamped to the plane, vertical velocity is inverted and damped by `-0.3`,
lateral velocity scaled by `0.8`. -/
def groundCollide (pos vel : Vec3) : Vec3 × Vec3 :=
  if pos.y < -10 then
    (⟨pos.x, -10, pos.z⟩, ⟨vel.x * (4/5), vel.y * (-3/10), vel.z * (4/5)⟩)
  else (pos, vel)

/-- The alive branch of the kernel: viscosity, obstacle collision,
velocity integration with damping, position integration, ground
collision, life decrement. -/
def aliveStep (params : SimulationParams) (obstacles : List Obstacle)
    (allParticles : List Particle) (index : Nat) (p : Particle) : Particle :=
  let v1 := applyViscosity params allParticles index p.position p.velocity
  let v2 := checkObstacleCollision obstacles p.position v1
  let v3 := integrateVelocity params v2
  let pos1 := p.position + params.deltaTime • v3
  let pv := groundCollide pos1 v3
  { position := pv.1, velocity := pv.2, life := p.life - params.deltaTime, size := p.size }

/-- WGSL `fn main`: bounds check against `particleCount`, then respawn
(if `life <= 0`) or the alive physics branch, writing the result back to
the particle's own slot. -/
def kernelMain (params : SimulationParams) (obstacles : List Obstacle)
    (allParticles : List Particle) (index : Nat) : Particle :=
  let particle := allParticles.getD index default
  if params.particleCount ≤ index then particle
  else if particle.life ≤ 0 then respawn index params particle
  else aliveStep params obstacles allParticles index particle

/-- One particle of the CPU-side initial fill
(`ComputeParticleSystem.initializeParticleData`) as a function of the
eight `Math.random()` draws it consumes, in source order:
position `((r0-0.5)*2, 10 + r1*2, (r2-0.5)*2)`,
velocity `((r3-0.5)*2, -1 - r4*2, (r5-0.5)*2)`,
life `r6*5`, size `0.05 + r7*0.05`. -/
structure HostInitDraw where
  r0 : ℚ
  r1 : ℚ
  r2 : ℚ
  r3 : ℚ
  r4 : ℚ
  r5 : ℚ
  r6 : ℚ
  r7 : ℚ
deriving DecidableEq

def hostInitParticle (d : HostInitDraw) : Particle :=
  { position := ⟨(d.r0 - 1/2) * 2, 10 + d.r1 * 2, (d.r2 - 1/2) * 2⟩
    velocity := ⟨(d.r3 - 1/2) * 2, -1 - d.r4 * 2, (d.r5 - 1/2) * 2⟩
    life := d.r6 * 5
    size := 1/20 + d.r7 * (1/20) }

/-- Observable state of a `ComputeParticleSystem` instance.
`computeShader` models `this.computeShader !== null` (the only condition
`update` checks); `resourcesLive` records whether the GPU objects have
not yet had `.dispose()` called on them.  The constructor leaves every
resource field `null`. -/
structure OrchState where
  computeShader : Bool
  resourcesLive : Bool
  particleCount : Nat
deriving DecidableEq

/-- `new ComputeParticleSystem(engine, scene, count)`: no resources yet. -/
def mkComputeParticleSystem (count : Nat) : OrchState :=
  { computeShader := false, resourcesLive := false, particleCount := count }

/-- `initialize()`: creates the buffers and the compute shader and
assigns them to the instance fields. -/
def OrchState.initializeSystem (s : OrchState) : OrchState :=
  { s with computeShader := true, resourcesLive := true }

/-- `dispose()`: calls `.dispose()` on the particle buffer, params
buffer, obstacle buffer and compute shader, but does NOT null the
references and sets no disposed flag — `computeShader` stays assigned. -/
def OrchState.dispose (s : OrchState) : OrchState :=
  { s with resourcesLive := false }

/-- What one call to `ComputeParticleSystem.update(deltaTime)` does.
The source has exactly two paths: the guard `if (!this.computeShader)
return;` (a silent no-op — there is no throw statement anywhere in
`update`), or clamping `deltaTime` with `Math.min(deltaTime, 0.033)`,
refreshing the parameter buffer and issuing one
`dispatch(Math.ceil(particleCount / 64), 1, 1)`.  The `error` outcome is
included only so the spec's demanded behaviour is expressible; no code
path produces it. -/
inductive UpdateResult where
  | noop : UpdateResult
  | dispatch (clampedDeltaTime : ℚ) (workgroupCount : Nat) : UpdateResult
  | error : UpdateResult
deriving DecidableEq

def OrchState.update (s : OrchState) (deltaTime : ℚ) : UpdateResult :=
  if s.computeShader = false then .noop
  else .dispatch (min deltaTime (33/1000)) ((s.particleCount + 63) / 64)

/-- What `WaterfallScene.initializeFallbackParticles` (the WebGL2 path
taken when compute shaders are unavailable) actually does: it logs
`Using CPU-based particle fallback (limited to 5000 particles)`, then —
under a `TODO: Implement simple CPU particle system for WebGL2 fallback`
comment — only creates one emissive placeholder cylinder mesh.  No
particle store is allocated and no per-particle update ever runs, so the
number of host-simulated particles is 0. -/
structure FallbackInit where
  loggedCapacity : Nat
  simulatedParticleCount : Nat
  placeholderMeshCreated : Bool
deriving DecidableEq

def initializeFallbackParticles : FallbackInit :=
  { loggedCapacity := 5000
    simulatedParticleCount := 0
    placeholderMeshCreated := true }

/-- The particle count the scene requests on the compute path
(`new ComputeParticleSystem(engine, scene, 50000)`). -/
def requestedParticleCount : Nat := 50000

/-- The constructor parameters with `deltaTime` set to 0 (a `step(0)`
call), used as the concrete input of the C4 counterexample. -/
def zeroDtParams : SimulationParams :=
  { deltaTime := 0
    gravity := ⟨0, -981 / 100, 0⟩
    damping := 99 / 100
    viscosity := 1 / 50
    particleCount := 50000
    emitterPosition := ⟨0, 10, 0⟩
    emitterRadius := 2 }

/-- A particle that enters the step expired, at the origin. -/
def deadParticle : Particle := ⟨⟨0, 0, 0⟩, ⟨0, 0, 0⟩, 0, 1⟩

/-- First obstacle of the overlapping-collision fixture: a sphere of
radius 2 at the origin (chosen with rational distances so every collision
quantity is exact). -/
def obstacleA : Obstacle := ⟨⟨0, 0, 0⟩, 2⟩

/-- Second, overlapping obstacle of the collision fixture (center
(1,2,0), radius 2). -/
def obstacleB : Obstacle := ⟨⟨1, 2, 0⟩, 2⟩

/-- A particle position strictly inside both fixture obstacles
(distance 1 from `obstacleA`'s center, distance √2 from `obstacleB`'s). -/
def collidePos : Vec3 := ⟨0, 1, 0⟩

/-- An incoming velocity orthogonal to `obstacleA`'s outward normal at
`collidePos`. -/
def collideVel : Vec3 := ⟨1, 0, 0⟩

/-! ## Helper lemmas -/

theorem hashState_lt (p : Nat) : hashState p < 4294967296 := by
  unfold hashState
  have hpow : (4294967296 : ℕ) = 2 ^ 32 := by norm_num
  set s1 := (p * 747796405 + 2891336453) % 4294967296 with hs1
  set s2 := (((s1 >>> ((s1 >>> 28) + 4)) ^^^ s1) * 277803737) % 4294967296 with hs2
  have h2 : s2 < 2 ^ 32 := by
    rw [hs2, ← hpow]; exact Nat.mod_lt _ (by norm_num)
  have h3 : s2 >>> 22 < 2 ^ 32 := by
    refine lt_of_le_of_lt ?_ h2
    rw [Nat.shiftRight_eq_div_pow]
    exact Nat.div_le_self _ _
  rw [hpow]
  exact Nat.bitwise_lt h3 h2

theorem hash_nonneg (p : Nat) : 0 ≤ hash p := by
  unfold hash; positivity

theorem hash_le_one (p : Nat) : hash p ≤ 1 := by
  unfold hash
  rw [div_le_one (by norm_num)]
  have h := hashState_lt p
  have h2 : hashState p ≤ 4294967295 := by omega
  exact_mod_cast h2

theorem one_smul_vec (v : Vec3) : (1 : ℚ) • v = v := by
  cases v; simp

theorem smul_zero_add (p v : Vec3) : p + (0 : ℚ) • v = p := by
  cases p; cases v; simp

theorem dot_smul_left (c : ℚ) (a b : Vec3) : dot (c • a) b = c * dot a b := by
  cases a; cases b; simp only [Vec3.smul_def, dot]; ring

theorem dot_self_zero (u : Vec3) (h : dot u u = 0) : u = ⟨0, 0, 0⟩ := by
  cases u with
  | mk x y z =>
    simp only [dot] at h
    have hx : x * x = 0 :=
      le_antisymm (by nlinarith [mul_self_nonneg y, mul_self_nonneg z]) (mul_self_nonneg x)
    have hy : y * y = 0 :=
      le_antisymm (by nlinarith [mul_self_nonneg x, mul_self_nonneg z]) (mul_self_nonneg y)
    have hz : z * z = 0 :=
      le_antisymm (by nlinarith [mul_self_nonneg x, mul_self_nonneg y]) (mul_self_nonneg z)
    simp [mul_self_eq_zero.mp hx, mul_self_eq_zero.mp hy, mul_self_eq_zero.mp hz]

theorem dot_reflectDir (v u : Vec3) : dot (reflectDir v u) u = -(dot v u) := by
  have key : ∀ c : ℚ, dot (v - c • u) u = dot v u - c * dot u u := by
    intro c; cases v; cases u; simp only [Vec3.sub_def, Vec3.smul_def, dot]; ring
  rw [reflectDir, key]
  by_cases h : dot u u = 0
  · have hvu : dot v u = 0 := by
      rw [dot_self_zero u h]; cases v; simp [dot]
    rw [h, hvu]; norm_num
  · field_simp
    ring

theorem collideFold_no_hit (pos vel acc : Vec3) (L : List Obstacle)
    (h : ∀ o ∈ L, ¬ obstacleHit o pos) :
    L.foldl (collideStep pos vel) acc = acc := by
  induction L generalizing acc with
  | nil => rfl
  | cons o L ih =>
    rw [List.foldl_cons, collideStep, if_neg (h o (List.mem_cons_self o L))]
    exact ih acc fun o' ho' => h o' (List.mem_cons_of_mem _ ho')

theorem groundCollide_no_clamp (pos vel : Vec3) (h : -10 ≤ pos.y) :
    groundCollide pos vel = (pos, vel) := by
  unfold groundCollide
  rw [if_neg (not_lt.mpr h)]

theorem groundCollide_y (pos vel : Vec3) : -10 ≤ (groundCollide pos vel).1.y := by
  unfold groundCollide
  split
  · norm_num
  · next h => exact not_lt.mp h

theorem offset_bound (rad h : ℚ) (hrad : 0 ≤ rad) (h0 : 0 ≤ h) (h1 : h ≤ 1) :
    |rad * (h - 1/2)| ≤ rad := by
  rw [abs_mul, abs_of_nonneg hrad]
  have habs : |h - 1/2| ≤ 1/2 := abs_le.mpr (by constructor <;> linarith)
  nlinarith

theorem respawn_life_pos (index : Nat) (params : SimulationParams) (p : Particle) :
    0 < (respawn index params p).life := by
  have h := hash_nonneg (index + timeSeed params.deltaTime)
  show 0 < 5 + hash (index + timeSeed params.deltaTime) * 3
  linarith

theorem respawn_velocity_y_neg (index : Nat) (params : SimulationParams) (p : Particle) :
    (respawn index params p).velocity.y < 0 := by
  have h := hash_nonneg (index + timeSeed params.deltaTime + 1)
  show -1 - hash (index + timeSeed params.deltaTime + 1) * 2 < 0
  linarith

theorem respawn_position_sub (index : Nat) (params : SimulationParams) (p : Particle) :
    (respawn index params p).position.x - params.emitterPosition.x
      = params.emitterRadius * (hash (index + timeSeed params.deltaTime) - 1/2) ∧
    (respawn index params p).position.y - params.emitterPosition.y
      = params.emitterRadius * (hash (index + timeSeed params.deltaTime + 1) - 1/2) ∧
    (respawn index params p).position.z - params.emitterPosition.z
      = params.emitterRadius * (hash (index + timeSeed params.deltaTime + 2) - 1/2) := by
  refine ⟨?_, ?_, ?_⟩ <;>
    simp only [respawn, respawnWith, random3, Vec3.add_def, Vec3.sub_def, Vec3.smul_def] <;>
    ring



theorem obstacleA_hit : obstacleHit obstacleA collidePos := by
  constructor
  · norm_num [obstacleA]
  · norm_num [obstacleA, collidePos, dot]

theorem obstacleB_hit : obstacleHit obstacleB collidePos := by
  constructor
  · norm_num [obstacleB]
  · norm_num [obstacleB, collidePos, dot]

/-! ## Claim theorems -/

/-- Claim C1, counterexample: `update` called on a freshly constructed
(never initialized) `ComputeParticleSystem` returns silently (the
`if (!this.computeShader) return;` guard) instead of reporting an error,
and `update` called after `initialize(); dispose()` still passes the
guard and issues a dispatch (782 workgroups for 50000 particles) instead
of failing: in neither misuse state does the call fail loudly. -/
theorem c1_counterexample :
    OrchState.update (mkComputeParticleSystem 50000) (2/125) = UpdateResult.noop ∧
    UpdateResult.noop ≠ UpdateResult.error ∧
    OrchState.update (OrchState.dispose (OrchState.initializeSystem (mkComputeParticleSystem 50000)))
        (2/125) = UpdateResult.dispatch (2/125) 782 ∧
    UpdateResult.dispatch (2/125) 782 ≠ UpdateResult.error := by
  refine ⟨?_, by decide, ?_, by decide⟩
  · rfl
  · show UpdateResult.dispatch (min (2/125) (33/1000)) ((50000 + 63) / 64)
        = UpdateResult.dispatch (2/125) 782
    norm_num

/-- Claim C1, amended: calling the per-frame step before a successful
`initialize()` silently no-ops (no dispatch, no reported error), and
since `dispose()` releases the GPU resources but neither nulls the
`computeShader` reference nor sets a disposed flag, a step call after
`dispose()` does not fail at all: it clamps `deltaTime` and issues a
normal dispatch against the released resources. -/
theorem c1_amended (count : Nat) (dt : ℚ) :
    OrchState.update (mkComputeParticleSystem count) dt = UpdateResult.noop ∧
    OrchState.update (OrchState.dispose (OrchState.initializeSystem (mkComputeParticleSystem count))) dt
      = UpdateResult.dispatch (min dt (33/1000)) ((count + 63) / 64) ∧
    (OrchState.dispose (OrchState.initializeSystem (mkComputeParticleSystem count))).resourcesLive
      = false := by
  exact ⟨rfl, rfl, rfl⟩

/-- Claim C2: evaluation of the fallback path at the failing input
(fallback mode active, requested particle count 50000).  The code's own
log line promises a CPU fallback limited to 5000 particles (one tenth of
the requested 50000), but the body is a `TODO` placeholder that only
creates a static cylinder mesh: the number of host-simulated particles
is 0, not the promised reduced capacity. -/
theorem c2_fallback_placeholder :
    initializeFallbackParticles.loggedCapacity = 5000 ∧
    initializeFallbackParticles.loggedCapacity * 10 = requestedParticleCount ∧
    initializeFallbackParticles.simulatedParticleCount = 0 ∧
    initializeFallbackParticles.simulatedParticleCount ≠ initializeFallbackParticles.loggedCapacity ∧
    initializeFallbackParticles.placeholderMeshCreated = true := by
  refine ⟨rfl, rfl, rfl, by decide, rfl⟩

/-- Claim C5, counterexample: `hash` does NOT always land strictly below
1.  The final 32-bit state is divided by 4294967295 = 2^32 - 1, and the
state map is onto: at seed 2222045655 the final state is exactly
4294967295, so `hash 2222045655 = 1`, outside the claimed half-open
interval [0,1). -/
theorem c5_counterexample : hash 2222045655 = 1 ∧ ¬ hash 2222045655 < 1 := by
  have h : hashState 2222045655 = 4294967295 := by decide
  have h1 : hash 2222045655 = 1 := by
    unfold hash; rw [h]; norm_num
  exact ⟨h1, by rw [h1]; exact lt_irrefl 1⟩

/-- Claim C5, amended: for every u32 seed, `hash` (with all intermediate
32-bit arithmetic taken modulo 2^32) returns a value in the CLOSED
interval [0,1]; the upper end is attained (see the counterexample), so
the interval cannot be sharpened to [0,1). -/
theorem c5_amended (p : Nat) : 0 ≤ hash p ∧ hash p ≤ 1 :=
  ⟨hash_nonneg p, hash_le_one p⟩

/-- Claim C8: on an initialized system, `update(deltaTime)` writes
`min(deltaTime, 0.033)` as the simulation step (values above the 0.033
cap are replaced by it, values at or below pass through) and issues
exactly one dispatch of `ceil(particleCount / 64)` workgroups (the
returned `UpdateResult.dispatch` is the single `dispatch` call of the
source; the last two conjuncts characterise the workgroup count as the
ceiling of `particleCount / 64`). -/
theorem c8_step_dispatch (s : OrchState) (dt : ℚ) (hs : s.computeShader = true) :
    OrchState.update s dt
      = UpdateResult.dispatch (min dt (33/1000)) ((s.particleCount + 63) / 64) ∧
    (33/1000 < dt → min dt (33/1000) = 33/1000) ∧
    (dt ≤ 33/1000 → min dt (33/1000) = dt) ∧
    s.particleCount ≤ 64 * ((s.particleCount + 63) / 64) ∧
    64 * ((s.particleCount + 63) / 64) < s.particleCount + 64 := by
  refine ⟨?_, fun h => min_eq_right h.le, fun h => min_eq_left h, ?_, ?_⟩
  · unfold OrchState.update
    rw [if_neg (by rw [hs]; exact fun h => Bool.noConfusion h)]
  · omega
  · omega

/-- Witness for C8 at a concrete initialized state: 50000 particles,
`deltaTime = 1` second (above the cap). -/
theorem c8_witness :
    OrchState.update (OrchState.initializeSystem (mkComputeParticleSystem 50000)) 1
      = UpdateResult.dispatch (min 1 (33/1000)) ((50000 + 63) / 64) ∧
    (33/1000 < (1 : ℚ) → min (1 : ℚ) (33/1000) = 33/1000) ∧
    ((1 : ℚ) ≤ 33/1000 → min (1 : ℚ) (33/1000) = 1) ∧
    50000 ≤ 64 * ((50000 + 63) / 64) ∧
    64 * ((50000 + 63) / 64) < 50000 + 64 :=
  c8_step_dispatch (OrchState.initializeSystem (mkComputeParticleSystem 50000)) 1 rfl


/-- Claim C9: with `viscosity = 0` the viscosity pass returns the
velocity unchanged for every input (`mix(vel, avg, 0) = vel`); the
averaging denominator is seeded at 1 and hence is at least 1 for every
particle configuration (no division by zero even with no neighbour in
the influence radius); and with `damping = 1` the damping multiplication
leaves the integrated velocity `v + deltaTime * gravity` unchanged. -/
theorem c9_degenerate (params : SimulationParams) (allParticles : List Particle)
    (index : Nat) (pos vel v : Vec3) :
    (params.viscosity = 0 → applyViscosity params allParticles index pos vel = vel) ∧
    1 ≤ viscosityCount params allParticles index pos ∧
    (params.damping = 1 →
      integrateVelocity params v = v + params.deltaTime • params.gravity) := by
  refine ⟨fun h => ?_, ?_, fun h => ?_⟩
  · cases vel; simp [applyViscosity, mix, h]
  · unfold viscosityCount
    have hn : (0 : ℚ) ≤ ((viscosityNeighbors params allParticles index pos).length : ℚ) :=
      Nat.cast_nonneg _
    linarith
  · rw [integrateVelocity, h, one_smul_vec]

/-- Witness for C9 at concrete inputs: the constructor parameters with
`viscosity` set to 0 (respectively `damping` set to 1), one particle
slot, velocity (1,2,3). -/
theorem c9_witness :
    applyViscosity { defaultParams with viscosity := 0 } [] 0 ⟨0, 0, 0⟩ ⟨1, 2, 3⟩ = ⟨1, 2, 3⟩ ∧
    1 ≤ viscosityCount { defaultParams with viscosity := 0 } [] 0 ⟨0, 0, 0⟩ ∧
    integrateVelocity { defaultParams with damping := 1 } ⟨1, 2, 3⟩
      = ⟨1, 2, 3⟩ + ({ defaultParams with damping := 1 } : SimulationParams).deltaTime •
          ({ defaultParams with damping := 1 } : SimulationParams).gravity :=
  ⟨(c9_degenerate { defaultParams with viscosity := 0 } [] 0 ⟨0, 0, 0⟩ ⟨1, 2, 3⟩ ⟨1, 2, 3⟩).1 rfl,
   (c9_degenerate { defaultParams with viscosity := 0 } [] 0 ⟨0, 0, 0⟩ ⟨1, 2, 3⟩ ⟨1, 2, 3⟩).2.1,
   (c9_degenerate { defaultParams with damping := 1 } [] 0 ⟨0, 0, 0⟩ ⟨1, 2, 3⟩ ⟨1, 2, 3⟩).2.2 rfl⟩

/-- Claim C10: a particle that enters a step alive (`life > 0`,
`index < particleCount`) leaves the step with `position.y ≥ -10` for
every `deltaTime`: the alive branch ends with the ground-collision
clamp at the fixed ground height -10. -/
theorem c10_ground_plane (params : SimulationParams) (obstacles : List Obstacle)
    (allParticles : List Particle) (index : Nat)
    (hidx : index < params.particleCount)
    (halive : 0 < (allParticles.getD index default).life) :
    -10 ≤ (kernelMain params obstacles allParticles index).position.y := by
  have hred : kernelMain params obstacles allParticles index
      = aliveStep params obstacles allParticles index (allParticles.getD index default) := by
    simp only [kernelMain]
    rw [if_neg (not_le.mpr hidx), if_neg (not_le.mpr halive)]
  rw [hred]
  exact groundCollide_y _ _

/-- Witness for C10: default parameters, no obstacles, one alive
particle at the origin. -/
theorem c10_witness :
    -10 ≤ (kernelMain defaultParams []
        [⟨⟨0, 0, 0⟩, ⟨0, 0, 0⟩, 1, 1⟩] 0).position.y :=
  c10_ground_plane defaultParams [] [⟨⟨0, 0, 0⟩, ⟨0, 0, 0⟩, 1, 1⟩] 0
    (by norm_num [defaultParams]) (by norm_num [List.getD])

/-- Claim C4, counterexample: a zero-time step does NOT leave every
particle's life and position unchanged.  A particle entering the step
with `life = 0` takes the respawn branch regardless of `deltaTime`: with
`deltaTime = 0` its life becomes `5 + 3*hash(seed) ≥ 5` and its
y-coordinate jumps into the emitter band `[9, 11]`, both different from
the entering values (`life = 0`, `position.y = 0`). -/
theorem c4_counterexample :
    deadParticle.life = 0 ∧ deadParticle.position.y = 0 ∧
    (kernelMain zeroDtParams [] [deadParticle] 0).life ≠ 0 ∧
    (kernelMain zeroDtParams [] [deadParticle] 0).position.y ≠ 0 := by
  have hred : kernelMain zeroDtParams [] [deadParticle] 0
      = respawn 0 zeroDtParams deadParticle := by
    simp only [kernelMain, List.getD_cons_zero]
    norm_num [deadParticle, zeroDtParams]
  refine ⟨rfl, rfl, ?_, ?_⟩
  · rw [hred]
    exact ne_of_gt (respawn_life_pos 0 zeroDtParams deadParticle)
  · rw [hred]
    have hy := (respawn_position_sub 0 zeroDtParams deadParticle).2.1
    have hE : zeroDtParams.emitterPosition.y = 10 := rfl
    have hR : zeroDtParams.emitterRadius = 2 := rfl
    have h0 := hash_nonneg (0 + timeSeed zeroDtParams.deltaTime + 1)
    have h1 := hash_le_one (0 + timeSeed zeroDtParams.deltaTime + 1)
    intro hc
    rw [hc, hE, hR] at hy
    linarith

/-- Claim C4, amended: for every particle entering the step ALIVE
(`life > 0`) and at or above the ground plane (`position.y ≥ -10`), a
step with `deltaTime = 0` leaves life and position unchanged (the
viscosity, collision and damping passes may still change the velocity,
but they contribute zero displacement).  The restriction to alive
particles is forced by the counterexample: dead particles respawn even
in a zero-time step. -/
theorem c4_amended (params : SimulationParams) (obstacles : List Obstacle)
    (allParticles : List Particle) (index : Nat)
    (hdt : params.deltaTime = 0)
    (hidx : index < params.particleCount)
    (halive : 0 < (allParticles.getD index default).life)
    (hy : -10 ≤ (allParticles.getD index default).position.y) :
    (kernelMain params obstacles allParticles index).life
      = (allParticles.getD index default).life ∧
    (kernelMain params obstacles allParticles index).position
      = (allParticles.getD index default).position := by
  have hred : kernelMain params obstacles allParticles index
      = aliveStep params obstacles allParticles index (allParticles.getD index default) := by
    simp only [kernelMain]
    rw [if_neg (not_le.mpr hidx), if_neg (not_le.mpr halive)]
  rw [hred]
  constructor
  · show (allParticles.getD index default).life - params.deltaTime = _
    rw [hdt, sub_zero]
  · show (groundCollide ((allParticles.getD index default).position + params.deltaTime • _) _).1
        = _
    rw [hdt, smul_zero_add, groundCollide_no_clamp _ _ hy]

/-- Witness for C4 (amended) at a concrete input: zero `deltaTime`, one
alive particle at (0,5,0). -/
theorem c4_witness :
    (kernelMain { defaultParams with deltaTime := 0 } []
        [⟨⟨0, 5, 0⟩, ⟨0, 0, 0⟩, 1, 1⟩] 0).life = 1 ∧
    (kernelMain { defaultParams with deltaTime := 0 } []
        [⟨⟨0, 5, 0⟩, ⟨0, 0, 0⟩, 1, 1⟩] 0).position = ⟨0, 5, 0⟩ :=
  c4_amended { defaultParams with deltaTime := 0 } []
    [⟨⟨0, 5, 0⟩, ⟨0, 0, 0⟩, 1, 1⟩] 0 rfl
    (by norm_num [defaultParams]) (by norm_num [List.getD]) (by norm_num [List.getD])


/-- Claim C6: every particle entering a step with `life <= 0` and
`index < particleCount` leaves the step respawned: `life > 0`, position
within `emitterRadius` of `emitterPosition` in the L-infinity sense
(each coordinate offset has absolute value at most `emitterRadius`; the
code in fact guarantees the tighter `emitterRadius/2`), and a strictly
negative velocity y-component. -/
theorem c6_respawn_envelope (params : SimulationParams) (obstacles : List Obstacle)
    (allParticles : List Particle) (index : Nat)
    (hidx : index < params.particleCount)
    (hdead : (allParticles.getD index default).life ≤ 0)
    (hrad : 0 ≤ params.emitterRadius) :
    0 < (kernelMain params obstacles allParticles index).life ∧
    |(kernelMain params obstacles allParticles index).position.x
        - params.emitterPosition.x| ≤ params.emitterRadius ∧
    |(kernelMain params obstacles allParticles index).position.y
        - params.emitterPosition.y| ≤ params.emitterRadius ∧
    |(kernelMain params obstacles allParticles index).position.z
        - params.emitterPosition.z| ≤ params.emitterRadius ∧
    (kernelMain params obstacles allParticles index).velocity.y < 0 := by
  have hred : kernelMain params obstacles allParticles index
      = respawn index params (allParticles.getD index default) := by
    simp only [kernelMain]
    rw [if_neg (not_le.mpr hidx), if_pos hdead]
  obtain ⟨hx, hy, hz⟩ := respawn_position_sub index params (allParticles.getD index default)
  rw [hred]
  refine ⟨respawn_life_pos index params _, ?_, ?_, ?_, respawn_velocity_y_neg index params _⟩
  · rw [hx]; exact offset_bound _ _ hrad (hash_nonneg _) (hash_le_one _)
  · rw [hy]; exact offset_bound _ _ hrad (hash_nonneg _) (hash_le_one _)
  · rw [hz]; exact offset_bound _ _ hrad (hash_nonneg _) (hash_le_one _)

/-- Witness for C6: the constructor parameters, one expired default
particle slot (the empty list reads back the default record, whose
`life` is 0). -/
theorem c6_witness :
    0 < (kernelMain defaultParams [] [] 0).life ∧
    |(kernelMain defaultParams [] [] 0).position.x
        - defaultParams.emitterPosition.x| ≤ defaultParams.emitterRadius ∧
    |(kernelMain defaultParams [] [] 0).position.y
        - defaultParams.emitterPosition.y| ≤ defaultParams.emitterRadius ∧
    |(kernelMain defaultParams [] [] 0).position.z
        - defaultParams.emitterPosition.z| ≤ defaultParams.emitterRadius ∧
    (kernelMain defaultParams [] [] 0).velocity.y < 0 :=
  c6_respawn_envelope defaultParams [] [] 0 (by norm_num [defaultParams])
    (le_of_eq rfl) (by norm_num [defaultParams])

/-- Claim C3, counterexample: the host-side initial fill does NOT follow
the kernel respawn's distribution law.  At the all-zeros random draw (a
valid draw for both sides) the host fill produces `life = 0` and
`position.y = 10`, while the kernel respawn branch produces `life = 5`
and `position.y = 9`: the host initial life lies in [0,5) (disjoint from
the kernel's [5,8]) and the host initial y-position is one unit above
the kernel's value at every draw. -/
theorem c3_counterexample :
    (hostInitParticle ⟨0, 0, 0, 0, 0, 0, 0, 0⟩).life = 0 ∧
    (respawnWith ⟨0, 0, 0⟩ defaultParams default).life = 5 ∧
    (hostInitParticle ⟨0, 0, 0, 0, 0, 0, 0, 0⟩).position.y = 10 ∧
    (respawnWith ⟨0, 0, 0⟩ defaultParams default).position.y = 9 ∧
    ((0 : ℚ) ≠ 5) ∧ ((10 : ℚ) ≠ 9) := by
  refine ⟨?_, ?_, ?_, ?_, by norm_num, by norm_num⟩ <;>
    norm_num [hostInitParticle, respawnWith, defaultParams]

/-- Claim C3, amended: the host initial fill agrees with the kernel
respawn distribution for velocity, size, and the x and z position
offsets (pointwise equal as functions of the underlying random draws,
with the emitter parameters of the constructor), but differs in the two
remaining fields: the initial y-position equals the kernel respawn
y-position PLUS ONE (host `10 + r*2` versus kernel `9 + r*2`, i.e. host
range [10,12) versus kernel [9,11)), and the initial life lies in [0,5)
(host `r*5`) while every kernel respawn life is at least 5 (kernel
`5 + r*3`). -/
theorem c3_amended (d : HostInitDraw) (rand : Vec3)
    (h6a : 0 ≤ d.r6) (h6b : d.r6 < 1) (hrx : 0 ≤ rand.x) :
    (hostInitParticle d).velocity
      = (respawnWith ⟨d.r3, d.r4, d.r5⟩ defaultParams default).velocity ∧
    (hostInitParticle d).size
      = (respawnWith ⟨d.r6, d.r7, 0⟩ defaultParams default).size ∧
    (hostInitParticle d).position.x
      = (respawnWith ⟨d.r0, 0, 0⟩ defaultParams default).position.x ∧
    (hostInitParticle d).position.z
      = (respawnWith ⟨0, 0, d.r2⟩ defaultParams default).position.z ∧
    (hostInitParticle d).position.y
      = (respawnWith ⟨0, d.r1, 0⟩ defaultParams default).position.y + 1 ∧
    0 ≤ (hostInitParticle d).life ∧ (hostInitParticle d).life < 5 ∧
    5 ≤ (respawnWith rand defaultParams default).life := by
  refine ⟨rfl, rfl, ?_, ?_, ?_, ?_, ?_, ?_⟩
  · show (d.r0 - 1/2) * 2 = 0 + 2 * (d.r0 - 1/2)
    ring
  · show (d.r2 - 1/2) * 2 = 0 + 2 * (d.r2 - 1/2)
    ring
  · show 10 + d.r1 * 2 = 10 + 2 * (d.r1 - 1/2) + 1
    ring
  · show (0 : ℚ) ≤ d.r6 * 5
    positivity
  · show d.r6 * 5 < 5
    linarith
  · show (5 : ℚ) ≤ 5 + rand.x * 3
    linarith

/-- Witness for C3 (amended) at the all-one-half draw. -/
theorem c3_witness :
    (hostInitParticle ⟨1/2, 1/2, 1/2, 1/2, 1/2, 1/2, 1/2, 1/2⟩).velocity
      = (respawnWith ⟨1/2, 1/2, 1/2⟩ defaultParams default).velocity ∧
    (hostInitParticle ⟨1/2, 1/2, 1/2, 1/2, 1/2, 1/2, 1/2, 1/2⟩).size
      = (respawnWith ⟨1/2, 1/2, 0⟩ defaultParams default).size ∧
    (hostInitParticle ⟨1/2, 1/2, 1/2, 1/2, 1/2, 1/2, 1/2, 1/2⟩).position.x
      = (respawnWith ⟨1/2, 0, 0⟩ defaultParams default).position.x ∧
    (hostInitParticle ⟨1/2, 1/2, 1/2, 1/2, 1/2, 1/2, 1/2, 1/2⟩).position.z
      = (respawnWith ⟨0, 0, 1/2⟩ defaultParams default).position.z ∧
    (hostInitParticle ⟨1/2, 1/2, 1/2, 1/2, 1/2, 1/2, 1/2, 1/2⟩).position.y
      = (respawnWith ⟨0, 1/2, 0⟩ defaultParams default).position.y + 1 ∧
    0 ≤ (hostInitParticle ⟨1/2, 1/2, 1/2, 1/2, 1/2, 1/2, 1/2, 1/2⟩).life ∧
    (hostInitParticle ⟨1/2, 1/2, 1/2, 1/2, 1/2, 1/2, 1/2, 1/2⟩).life < 5 ∧
    5 ≤ (respawnWith ⟨1/2, 1/2, 1/2⟩ defaultParams default).life :=
  c3_amended ⟨1/2, 1/2, 1/2, 1/2, 1/2, 1/2, 1/2, 1/2⟩ ⟨1/2, 1/2, 1/2⟩
    (by norm_num) (by norm_num) (by norm_num)

/-- Claim C7, counterexample: the 0.6 energy-loss bound does NOT hold
along the normal of EVERY obstacle containing the particle.  With two
overlapping obstacles both containing `collidePos`, the incoming
velocity is orthogonal to `obstacleA`'s outward normal (incoming normal
speed 0), but the loop's last write resolves against `obstacleB` and the
returned velocity has speed 3/5 along `obstacleA`'s unit normal —
exceeding 0.6 times the incoming normal speed.  (The direction
`collidePos - obstacleA.position` has unit length, so dotting with it is
exactly the speed along `obstacleA`'s outward unit normal.) -/
theorem c7_counterexample :
    obstacleHit obstacleA collidePos ∧
    dot (collidePos - obstacleA.position) (collidePos - obstacleA.position) = 1 ∧
    dot collideVel (collidePos - obstacleA.position) = 0 ∧
    checkObstacleCollision [obstacleA, obstacleB] collidePos collideVel
      = ⟨0, -(3/5), 0⟩ ∧
    ¬ (|dot (checkObstacleCollision [obstacleA, obstacleB] collidePos collideVel)
          (collidePos - obstacleA.position)|
        ≤ 3/5 * |dot collideVel (collidePos - obstacleA.position)|) := by
  have hc : checkObstacleCollision [obstacleA, obstacleB] collidePos collideVel
      = ⟨0, -(3/5), 0⟩ := by
    unfold checkObstacleCollision
    rw [List.foldl_cons, List.foldl_cons, List.foldl_nil]
    simp only [collideStep]
    rw [if_pos obstacleB_hit]
    norm_num [reflectDir, dot, obstacleB, collidePos, collideVel]
  refine ⟨obstacleA_hit, ?_, ?_, hc, ?_⟩
  · norm_num [obstacleA, collidePos, dot]
  · norm_num [obstacleA, collidePos, collideVel, dot]
  · rw [hc]
    norm_num [obstacleA, collidePos, collideVel, dot]

/-- Claim C7, amended: the 0.6 energy-loss bound holds along the normal
of the LAST obstacle in iteration order that contains the particle (in
particular along the unique containing obstacle when obstacles do not
overlap): the returned velocity is `0.6 * reflect(vel, n)` for that
obstacle's normal, its speed along that normal is exactly 0.6 times the
incoming speed along it (sign-reversed), hence at most 0.6 times.  For
an EARLIER containing obstacle the bound can fail, because each
resolution reflects the original incoming velocity and the last write
wins (see the counterexample).  Dot products are taken against the
unnormalised outward direction `pos - ob.position`, which differs from
the unit normal by the same positive factor on both sides. -/
theorem c7_amended (pre post : List Obstacle) (pos vel : Vec3) (ob : Obstacle)
    (hhit : obstacleHit ob pos) (hpost : ∀ o ∈ post, ¬ obstacleHit o pos) :
    checkObstacleCollision (pre ++ ob :: post) pos vel
      = (3/5 : ℚ) • reflectDir vel (pos - ob.position) ∧
    dot (checkObstacleCollision (pre ++ ob :: post) pos vel) (pos - ob.position)
      = -(3/5 * dot vel (pos - ob.position)) ∧
    |dot (checkObstacleCollision (pre ++ ob :: post) pos vel) (pos - ob.position)|
      ≤ 3/5 * |dot vel (pos - ob.position)| := by
  have heq : checkObstacleCollision (pre ++ ob :: post) pos vel
      = (3/5 : ℚ) • reflectDir vel (pos - ob.position) := by
    unfold checkObstacleCollision
    rw [List.foldl_append, List.foldl_cons]
    rw [show collideStep pos vel (List.foldl (collideStep pos vel) vel pre) ob
        = (3/5 : ℚ) • reflectDir vel (pos - ob.position) from by
      rw [collideStep, if_pos hhit]]
    exact collideFold_no_hit pos vel _ post hpost
  have hdot : dot ((3/5 : ℚ) • reflectDir vel (pos - ob.position)) (pos - ob.position)
      = -(3/5 * dot vel (pos - ob.position)) := by
    rw [dot_smul_left, dot_reflectDir]; ring
  refine ⟨heq, by rw [heq, hdot], ?_⟩
  rw [heq, hdot, abs_neg, abs_mul]
  rw [show |(3/5 : ℚ)| = 3/5 from by norm_num]

/-- Witness for C7 (amended): `obstacleB` as the last containing
obstacle behind `obstacleA`, with the fixture position and velocity. -/
theorem c7_witness :
    checkObstacleCollision ([obstacleA] ++ obstacleB :: []) collidePos collideVel
      = (3/5 : ℚ) • reflectDir collideVel (collidePos - obstacleB.position) ∧
    dot (checkObstacleCollision ([obstacleA] ++ obstacleB :: []) collidePos collideVel)
        (collidePos - obstacleB.position)
      = -(3/5 * dot collideVel (collidePos - obstacleB.position)) ∧
    |dot (checkObstacleCollision ([obstacleA] ++ obstacleB :: []) collidePos collideVel)
        (collidePos - obstacleB.position)|
      ≤ 3/5 * |dot collideVel (collidePos - obstacleB.position)| :=
  c7_amended [obstacleA] [] collidePos collideVel obstacleB obstacleB_hit
    (by intro o ho; exact absurd ho (List.not_mem_nil o))

end Waterfall
